import Mathlib

/-!
Shallow embedding of `src/modules/ffmpeg/producer/input.cpp` (CasparCG ffmpeg
input): the bounded packet queues, the demux worker loop `read_file`, the seek
logic `seek_frame`, end-of-stream detection `is_eof`, the consumer entry points
`get_video_packet` / `get_audio_packet`, and construction of
`input::implementation`.

External collaborators (the ffmpeg demuxer library and the TBB queue's
internal synchronisation) are modelled by their documented contracts: the
outcome of every external call is an explicit input (`OpenEnv`, `ReadResult`,
the `seek_ok` flag).  C++ `int` arithmetic is modelled over `Int` (no overflow
occurs at any value used in a theorem below); the floating-point expression in
`fix_time_base` is modelled by exact integer `floor (log10)` / `pow`, which
agrees with `float` evaluation at every denominator appearing below.
-/

set_option autoImplicit false

namespace CasparInput

/-- Payload of one `aligned_buffer`: a byte sequence.  The flush marker pushed
by `seek_frame` is the empty buffer (`std::make_shared<aligned_buffer>()`). -/
abbrev Buffer := List Nat

/-- `static const size_t PACKET_BUFFER_COUNT = 25;` (input.cpp:56). -/
def PACKET_BUFFER_COUNT : Nat := 25

/-- `AV_TIME_BASE` from libavutil: 1000000 timestamp units per second. -/
def AV_TIME_BASE : Int := 1000000

/-- `AVERROR_EOF = AVERROR(EPIPE)` in the ffmpeg version this file builds
against (error codes are negated errno values; EPIPE = 32). -/
def AVERROR_EOF : Int := -32

/-- `AVERROR_IO = AVERROR(EIO)` (EIO = 5). -/
def AVERROR_IO : Int := -5

/-- `AVSEEK_FLAG_BACKWARD` from libavformat. -/
def AVSEEK_FLAG_BACKWARD : Nat := 1

/-- `AVSEEK_FLAG_FRAME` from libavformat. -/
def AVSEEK_FLAG_FRAME : Nat := 8

/-- Model of `tbb::concurrent_bounded_queue<std::shared_ptr<aligned_buffer>>`
(input.cpp:74-75).  Per the TBB contract the capacity is a property of the
queue object: `try_push` appends and returns `true` while `size() < capacity`,
otherwise it returns `false` and discards the item; a default-constructed
queue has effectively unbounded capacity (modelled as `capacity = none`),
which becomes bounded only through an explicit `set_capacity` call —
a call `input.cpp` never makes. -/
structure BoundedQueue where
  items : List Buffer
  capacity : Option Nat
deriving DecidableEq

namespace BoundedQueue

/-- The queue as default-constructed at input.cpp:74-75: empty, and no
`set_capacity` call anywhere in the file, so the TBB default (unbounded)
capacity applies. -/
def emptyQueue : BoundedQueue := { items := [], capacity := none }

/-- `size()` of the TBB queue. -/
def size (q : BoundedQueue) : Nat := q.items.length

/-- `empty()` of the TBB queue. -/
def isEmptyQ (q : BoundedQueue) : Bool := q.items.isEmpty

/-- `try_push(item)`: append and return `true` unless the queue is at its
capacity, in which case return `false` and leave the queue unchanged. -/
def try_push (q : BoundedQueue) (b : Buffer) : BoundedQueue × Bool :=
  match q.capacity with
  | some c => if q.items.length < c then ({ q with items := q.items ++ [b] }, true) else (q, false)
  | none => ({ q with items := q.items ++ [b] }, true)

/-- `try_pop(item)`: pop the oldest element if any (FIFO). -/
def try_pop (q : BoundedQueue) : BoundedQueue × Option Buffer :=
  match q.items with
  | [] => (q, none)
  | b :: rest => ({ q with items := rest }, some b)

/-- Fold of `try_push` over a list of buffers, collecting each return value. -/
def pushAll (q : BoundedQueue) : List Buffer → BoundedQueue × List Bool
  | [] => (q, [])
  | b :: rest =>
      let p := q.try_push b
      let r := p.1.pushAll rest
      (r.1, p.2 :: r.2)

end BoundedQueue

/-- The slice of `AVCodecContext` this file reads and writes: the stream
time base (`time_base.num` / `time_base.den`).  The decoder-maintained
`frame_number` counter is supplied per read iteration instead, since
input.cpp only ever reads it. -/
structure CodecContext where
  time_base_num : Int
  time_base_den : Int
deriving DecidableEq

/-- Fuel-driven floor of the base-10 logarithm (`floorLog10Aux n n` computes
`floor (log10 n)` for `n ≥ 1`; the fuel only bounds recursion depth). -/
def floorLog10Aux : Nat → Nat → Nat
  | 0, _ => 0
  | fuel + 1, n => if n < 10 then 0 else floorLog10Aux fuel (n / 10) + 1

/-- `floor (log10 n)` for `n ≥ 1`; models
`static_cast<int>(std::log10(static_cast<float>(n)))` at the (exactly
representable, non-boundary) denominators used in the theorems below. -/
def floorLog10 (n : Nat) : Nat := floorLog10Aux n n

/-- Number of decimal digits of `d` (for `d ≥ 1`). -/
def decimalDigits (d : Nat) : Nat := floorLog10 d + 1

/-- `static_cast<int>(std::pow(10.0, e))`: `10^e` for `e ≥ 0`, and `0` for
negative `e` (the double `0.1` truncates to integer `0`). -/
def cpp_pow10_int (e : Int) : Int := if 0 ≤ e then (10 : Int) ^ e.toNat else 0

/-- `fix_time_base` (input.cpp:159-163): if the context is non-null and its
time-base numerator is 1, replace the numerator by
`pow(10, (int)log10((float)den) - 1)`; otherwise leave it unchanged. -/
def fix_time_base : Option CodecContext → Option CodecContext
  | none => none
  | some c =>
      if c.time_base_num = 1 then
        some { c with
                 time_base_num := cpp_pow10_int ((floorLog10 c.time_base_den.toNat : Int) - 1) }
      else some c

/-- State of `input::implementation` (input.cpp:54-81): the configuration
fields, the two packet queues, the codec contexts, the executor's running
flag, and the declared-but-never-assigned `exception_` member (line 80). -/
structure InputState where
  loop_ : Bool
  video_s_index_ : Int
  audio_s_index_ : Int
  start_frame_ : Int
  end_frame_ : Int
  eof_count_ : Int
  video_codec_context_ : Option CodecContext
  audio_codex_context_ : Option CodecContext
  video_packet_buffer_ : BoundedQueue
  audio_packet_buffer_ : BoundedQueue
  running : Bool
  exception_ : Option Unit
deriving DecidableEq

/-- `get_default_context` (input.cpp:186-189): the video context if present,
else the audio context. -/
def get_default_context (s : InputState) : Option CodecContext :=
  match s.video_codec_context_ with
  | some c => some c
  | none => s.audio_codex_context_

/-- `is_eof(errn)` (input.cpp:191-197).  `frame_number` is the current
`get_default_context()->frame_number` (maintained by the external decoder). -/
def is_eof (s : InputState) (frame_number : Int) (errn : Int) : Bool :=
  if s.end_frame_ ≠ -1 then decide (frame_number > s.eof_count_)
  else decide (errn = AVERROR_EOF) || decide (errn = AVERROR_IO)

/-- The spec reads “the external library signals EOF from the read” as the
source's no-window test: `errn == AVERROR_EOF || errn == AVERROR_IO`. -/
def libSignalsEOF (errn : Int) : Bool :=
  decide (errn = AVERROR_EOF) || decide (errn = AVERROR_IO)

/-- The `av_seek_frame` call issued by `seek_frame`: the computed timestamp
and the flag word actually passed to the library. -/
structure SeekCall where
  ts : Int
  flags : Nat
deriving DecidableEq

/-- Timestamp computed at input.cpp:276:
`frame * (int64_t)((AV_TIME_BASE * time_base.num) / time_base.den)` —
C++ integer division (truncation toward zero, `Int.tdiv`) happens inside the
cast, before the multiplication by `frame`. -/
def seek_ts (ctx : CodecContext) (frame : Int) : Int :=
  frame * ((AV_TIME_BASE * ctx.time_base_num).tdiv ctx.time_base_den)

/-- Timestamp the spec prescribes:
`frame * time_base.num * TIME_UNITS_PER_SECOND / time_base.den` with the
(integer) division applied last.  Stated from the spec's words, for
comparison against `seek_ts`. -/
def spec_seek_ts (ctx : CodecContext) (frame : Int) : Int :=
  (frame * ctx.time_base_num * AV_TIME_BASE).tdiv ctx.time_base_den

/-- Numerator the spec prescribes for a degenerate time base:
`10^(digits(denominator) - 1)`.  Stated from the spec's words, for
comparison against `fix_time_base`. -/
def spec_fix_num (den : Nat) : Int := (10 : Int) ^ (decimalDigits den - 1)

/-- `seek_frame(frame, flags)` (input.cpp:273-291).  `seek_ok` is the outcome
of the external `av_seek_frame` call.  Returns the issued call (timestamp and
flag word `flags | AVSEEK_FLAG_FRAME`) and, on success, the state with one
flush-marker (empty) buffer `try_push`-ed to each queue; on failure the
function throws (`none`). -/
def seek_frame (s : InputState) (frame : Int) (flags : Nat) (seek_ok : Bool) :
    SeekCall × Option InputState :=
  let ctx := (get_default_context s).getD ⟨0, 1⟩
  let call : SeekCall := ⟨seek_ts ctx frame, flags ||| AVSEEK_FLAG_FRAME⟩
  if seek_ok then
    (call, some { s with
                    video_packet_buffer_ := (s.video_packet_buffer_.try_push []).1,
                    audio_packet_buffer_ := (s.audio_packet_buffer_.try_push []).1 })
  else (call, none)

/-- `stop()` (input.cpp:252-256): stops the executor. -/
def stop (s : InputState) : InputState := { s with running := false }

/-- Backpressure condition of the while-loop at input.cpp:248:
`executor_.is_running() && audio_packet_buffer_.size() > PACKET_BUFFER_COUNT
&& video_packet_buffer_.size() > PACKET_BUFFER_COUNT`. -/
def backpressure_wait (s : InputState) : Bool :=
  s.running && decide (s.audio_packet_buffer_.size > PACKET_BUFFER_COUNT)
            && decide (s.video_packet_buffer_.size > PACKET_BUFFER_COUNT)

/-- Outcome of one `av_read_frame` call: a packet (return value 0) or a
negative error code. -/
inductive ReadResult where
  | ok (data : Buffer) (stream_index : Int)
  | err (errn : Int)
deriving DecidableEq

/-- Return code of the `av_read_frame` call. -/
def ReadResult.code : ReadResult → Int
  | .ok _ _ => 0
  | .err e => e

/-- The external demuxer only reports packets on existing streams, whose
indices are non-negative. -/
def stream_index_wf : ReadResult → Prop
  | .ok _ idx => 0 ≤ idx
  | .err _ => True

/-- Result of one `read_file` iteration: the new state, whether the worker is
now blocked in the backpressure wait, and the value the iteration's
`try_push` returned (if one happened). -/
structure IterResult where
  state : InputState
  blocked : Bool
  pushResult : Option Bool
deriving DecidableEq

/-- One iteration of `read_file` (input.cpp:199-250).  `frame_number` is the
default context's decoded-frame counter and `r` the `av_read_frame` outcome;
`seek_ok` is the outcome of the `av_seek_frame` issued on the loop-restart
path (if taken).  An exception (non-EOF read failure, or seek failure) is
caught at input.cpp:239-244: the worker stops and returns without scheduling
a next iteration and without waiting — and without storing the exception.
Otherwise the iteration ends at the backpressure wait (input.cpp:247-249). -/
def read_file (s : InputState) (frame_number : Int) (r : ReadResult) (seek_ok : Bool) :
    IterResult :=
  let errn := r.code
  if is_eof s frame_number errn then
    if s.loop_ then
      match seek_frame s s.start_frame_ AVSEEK_FLAG_BACKWARD seek_ok with
      | (_, some s1) =>
          let s2 := { s1 with eof_count_ := s1.eof_count_ + (s1.end_frame_ - s1.start_frame_) }
          { state := s2, blocked := backpressure_wait s2, pushResult := none }
      | (_, none) =>
          { state := stop s, blocked := false, pushResult := none }
    else
      let s1 := stop s
      { state := s1, blocked := backpressure_wait s1, pushResult := none }
  else if errn < 0 then
    { state := stop s, blocked := false, pushResult := none }
  else
    match r with
    | .ok data idx =>
        if idx = s.video_s_index_ then
          let p := s.video_packet_buffer_.try_push data
          let s1 := { s with video_packet_buffer_ := p.1 }
          { state := s1, blocked := backpressure_wait s1, pushResult := some p.2 }
        else if idx = s.audio_s_index_ then
          let p := s.audio_packet_buffer_.try_push data
          let s1 := { s with audio_packet_buffer_ := p.1 }
          { state := s1, blocked := backpressure_wait s1, pushResult := some p.2 }
        else
          { state := s, blocked := backpressure_wait s, pushResult := none }
    | .err _ => { state := s, blocked := backpressure_wait s, pushResult := none }

/-- What a worker blocked in the while-loop at input.cpp:248-249 does when
`cond_` is signalled: it re-evaluates the loop condition and either waits
again, proceeds to the already-scheduled next `read_file`, or — when the
executor has been stopped — leaves the loop and terminates. -/
inductive WakeOutcome where
  | stillBlocked
  | proceeds
  | exits
deriving DecidableEq

/-- Re-evaluation of the backpressure loop condition on a signal. -/
def wake (s : InputState) : WakeOutcome :=
  if backpressure_wait s then .stillBlocked
  else if s.running then .proceeds else .exits

/-- `get_video_packet()` (input.cpp:258-261, 293-298): signals `cond_`
(`notify_all`) and pops the video queue without blocking. -/
def get_video_packet (s : InputState) : InputState × Option Buffer :=
  let p := s.video_packet_buffer_.try_pop
  ({ s with video_packet_buffer_ := p.1 }, p.2)

/-- `get_audio_packet()` (input.cpp:263-266, 293-298): signals `cond_` and
pops the audio queue without blocking. -/
def get_audio_packet (s : InputState) : InputState × Option Buffer :=
  let p := s.audio_packet_buffer_.try_pop
  ({ s with audio_packet_buffer_ := p.1 }, p.2)

/-- `has_packet()` (input.cpp:268-271). -/
def has_packet (s : InputState) : Bool :=
  !s.video_packet_buffer_.isEmptyQ || !s.audio_packet_buffer_.isEmptyQ

/-- Constructor arguments of `input::implementation` (input.cpp:83). -/
structure ConstructParams where
  loop : Bool
  start_frame : Int
  end_frame : Int
deriving DecidableEq

/-- Outcomes of the external-library calls made during construction:
`av_open_input_file`, `av_find_stream_info`, the two `open_stream` scans
(each yielding, on success, the stream's codec context as reported by the
library and its stream index), and the initial `av_seek_frame` if one is
issued. -/
structure OpenEnv where
  open_ok : Bool
  find_ok : Bool
  video_stream : Option (CodecContext × Int)
  audio_stream : Option (CodecContext × Int)
  seek_ok : Bool
deriving DecidableEq

/-- Exceptions the constructor can throw (input.cpp:94-144). -/
inductive ConstructError where
  | invalid_argument
  | file_read_error
  | invalid_operation
deriving DecidableEq

/-- Constructor of `input::implementation` (input.cpp:83-149).  Member-init:
`start_frame_ = max(start_frame, 0)`, `end_frame_ = end_frame`,
`eof_count_ = end_frame - start_frame` (the *unclamped* argument).  Body:
playback-window check, resource open, stream-info probe, `open_stream` for
video then audio — note input.cpp:134 passes the *video* context to
`fix_time_base` in the audio branch — the no-stream check, the initial seek
when `start_frame_ != 0`, and finally the executor start (modelled by
`running := true`; the first `read_file` is only scheduled). -/
def construct (p : ConstructParams) (env : OpenEnv) : Except ConstructError InputState :=
  let start_frame_ : Int := max p.start_frame 0
  if p.end_frame > 0 ∧ p.end_frame ≤ start_frame_ then .error .invalid_argument
  else if !env.open_ok then .error .file_read_error
  else if !env.find_ok then .error .file_read_error
  else
    let v_index : Int := match env.video_stream with | some vi => vi.2 | none => -1
    let a_index : Int := match env.audio_stream with | some ai => ai.2 | none => -1
    let vctx1 := fix_time_base (env.video_stream.map Prod.fst)
    let actx := env.audio_stream.map Prod.fst
    let vctx2 := if actx.isSome then fix_time_base vctx1 else vctx1
    if vctx2.isNone ∧ actx.isNone then .error .file_read_error
    else
      let s0 : InputState :=
        { loop_ := p.loop
          video_s_index_ := v_index
          audio_s_index_ := a_index
          start_frame_ := start_frame_
          end_frame_ := p.end_frame
          eof_count_ := p.end_frame - p.start_frame
          video_codec_context_ := vctx2
          audio_codex_context_ := actx
          video_packet_buffer_ := BoundedQueue.emptyQueue
          audio_packet_buffer_ := BoundedQueue.emptyQueue
          running := false
          exception_ := none }
      if start_frame_ ≠ 0 then
        match seek_frame s0 start_frame_ 0 env.seek_ok with
        | (_, some s1) => .ok { s1 with running := true }
        | (_, none) => .error .invalid_operation
      else .ok { s0 with running := true }

/-- Iterated `read_file` from a state, threading the state through a list of
`av_read_frame` outcomes (with the decoded-frame counter held at 0 and seeks
succeeding), collecting each iteration's `try_push` return value. -/
def iterReads (s : InputState) : List ReadResult → InputState × List (Option Bool)
  | [] => (s, [])
  | r :: rest =>
      let res := read_file s 0 r true
      let t := iterReads res.state rest
      (t.1, res.pushResult :: t.2)

instance {ε α : Type} [DecidableEq ε] [DecidableEq α] : DecidableEq (Except ε α)
  | .ok a, .ok b =>
      if h : a = b then .isTrue (h ▸ rfl) else .isFalse (fun hh => h (by cases hh; rfl))
  | .error a, .error b =>
      if h : a = b then .isTrue (h ▸ rfl) else .isFalse (fun hh => h (by cases hh; rfl))
  | .ok _, .error _ => .isFalse (fun hh => by cases hh)
  | .error _, .ok _ => .isFalse (fun hh => by cases hh)

/-! Concrete fixtures used by counterexamples and witnesses. -/

/-- Environment: resource opens, one video stream (time base 3/25, index 0),
no audio stream, seeks succeed. -/
def videoEnv : OpenEnv := ⟨true, true, some (⟨3, 25⟩, 0), none, true⟩

/-- Parameters: no looping, whole file (`start_frame = 0`, `end_frame = -1`). -/
def baseParams : ConstructParams := ⟨false, 0, -1⟩

/-- The state `construct baseParams videoEnv` produces. -/
def baseState : InputState :=
  ⟨false, 0, -1, 0, -1, -1, some ⟨3, 25⟩, none, .emptyQueue, .emptyQueue, true, none⟩

/-- A backpressure-saturated state: worker running, 27 packets in each
queue. -/
def saturState : InputState :=
  { baseState with
      video_packet_buffer_ := ⟨List.replicate 27 [0], none⟩,
      audio_packet_buffer_ := ⟨List.replicate 27 [0], none⟩ }

/-- A state with an explicit playback window: `end_frame_ = 10`,
`eof_count_ = 10`. -/
def windowState : InputState := { baseState with end_frame_ := 10, eof_count_ := 10 }

/-- A looping state whose window is exhausted, with one stale real packet
left in each queue. -/
def loopState : InputState :=
  { baseState with
      loop_ := true, end_frame_ := 5, eof_count_ := 0,
      video_packet_buffer_ := ⟨[[7]], none⟩,
      audio_packet_buffer_ := ⟨[[9]], none⟩ }

/-- State of `loopState` after the loop-restart `read_file` iteration. -/
def loopRestarted : InputState := (read_file loopState 6 (.ok [1] 99) true).state

/-- Parameters with a nonzero start frame (forces the initial seek). -/
def seekParams : ConstructParams := ⟨false, 5, -1⟩

/-- The state `construct seekParams videoEnv` produces: the initial seek has
pushed one flush marker to each queue. -/
def seekedState : InputState :=
  { baseState with
      start_frame_ := 5, eof_count_ := -6,
      video_packet_buffer_ := ⟨[[]], none⟩,
      audio_packet_buffer_ := ⟨[[]], none⟩ }

/-- Environment with a video stream (time base 3/25) and an audio stream
whose reported time base is the degenerate 1/48000. -/
def avEnv : OpenEnv := ⟨true, true, some (⟨3, 25⟩, 0), some (⟨1, 48000⟩, 1), true⟩

/-- The state `construct baseParams avEnv` produces: the audio time base is
*unchanged* (input.cpp:134 fixes the video context again instead). -/
def avState : InputState :=
  { baseState with audio_s_index_ := 1, audio_codex_context_ := some ⟨1, 48000⟩ }

/-- A state whose default (video) stream has time base 1000/30000 — exactly
what constructing against a reported 1/30000 video stream yields after
`fix_time_base`. -/
def tbState : InputState := { baseState with video_codec_context_ := some ⟨1000, 30000⟩ }

/-- Parameters violating the playback-window invariant with looping on. -/
def badWindowParams : ConstructParams := ⟨true, 5, 3⟩

/-- Parameters with a negative start frame and a window. -/
def negStartParams : ConstructParams := ⟨false, -5, 10⟩

/-- The same parameters with the start frame replaced by 0. -/
def zeroStartParams : ConstructParams := ⟨false, 0, 10⟩

/-- The state `construct negStartParams videoEnv` produces:
`eof_count_ = 10 - (-5) = 15`. -/
def negStartState : InputState := { baseState with end_frame_ := 10, eof_count_ := 15 }

/-- The state `construct zeroStartParams videoEnv` produces:
`eof_count_ = 10`. -/
def zeroStartState : InputState := { baseState with end_frame_ := 10, eof_count_ := 10 }

/-- State of `loopState` right after a successful `seek_frame` (before the
`eof_count_` bump): one flush marker appended behind the stale packet in each
queue. -/
def loopSeeked : InputState :=
  { loopState with
      video_packet_buffer_ := ⟨[[7], []], none⟩,
      audio_packet_buffer_ := ⟨[[9], []], none⟩ }

/-! Helper lemmas about the queue model. -/

theorem BoundedQueue.try_push_capacity_eq (q : BoundedQueue) (b : Buffer) :
    (q.try_push b).1.capacity = q.capacity := by
  obtain ⟨items, c⟩ := q
  cases c with
  | none => rfl
  | some cap =>
      simp only [BoundedQueue.try_push]
      split <;> rfl

theorem BoundedQueue.try_push_none (q : BoundedQueue) (b : Buffer) (h : q.capacity = none) :
    q.try_push b = (⟨q.items ++ [b], none⟩, true) := by
  obtain ⟨items, c⟩ := q
  cases h
  rfl

theorem BoundedQueue.pushAll_none (bs : List Buffer) :
    ∀ q : BoundedQueue, q.capacity = none →
      q.pushAll bs = (⟨q.items ++ bs, none⟩, List.replicate bs.length true) := by
  induction bs with
  | nil =>
      intro q h
      obtain ⟨items, c⟩ := q
      cases h
      simp [BoundedQueue.pushAll]
  | cons b rest ih =>
      intro q h
      simp only [BoundedQueue.pushAll, BoundedQueue.try_push_none q b h]
      rw [ih ⟨q.items ++ [b], none⟩ rfl]
      simp [List.replicate_succ]

theorem BoundedQueue.mem_try_push (q : BoundedQueue) (x b : Buffer)
    (h : b ∈ (q.try_push x).1.items) : b ∈ q.items ∨ b = x := by
  obtain ⟨items, c⟩ := q
  cases c with
  | none => simpa [BoundedQueue.try_push] using h
  | some cap =>
      simp only [BoundedQueue.try_push] at h
      split at h <;> simp_all

/-! Helper lemmas about `seek_frame` and `construct`. -/

theorem fix_time_base_isNone (c : CodecContext) : (fix_time_base (some c)).isNone = false := by
  simp only [fix_time_base]
  split <;> rfl

theorem seek_frame_some (s : InputState) (f : Int) (fl : Nat) (ok : Bool) (c : SeekCall)
    (s' : InputState) (h : seek_frame s f fl ok = (c, some s')) :
    s' = { s with
             video_packet_buffer_ := (s.video_packet_buffer_.try_push []).1,
             audio_packet_buffer_ := (s.audio_packet_buffer_.try_push []).1 } := by
  cases ok with
  | false => simp [seek_frame] at h
  | true =>
      simp only [seek_frame, if_true] at h
      rw [Prod.mk.injEq, Option.some.injEq] at h
      exact h.2.symm

theorem seek_frame_call (s : InputState) (f : Int) (fl : Nat) (ok : Bool) (ctx : CodecContext)
    (hctx : get_default_context s = some ctx) :
    (seek_frame s f fl ok).1 = ⟨seek_ts ctx f, fl ||| AVSEEK_FLAG_FRAME⟩ := by
  cases ok <;> simp [seek_frame, hctx]

theorem seek_frame_true (s : InputState) (f : Int) (fl : Nat) :
    seek_frame s f fl true =
      (⟨seek_ts ((get_default_context s).getD ⟨0, 1⟩) f, fl ||| AVSEEK_FLAG_FRAME⟩,
       some { s with
                video_packet_buffer_ := (s.video_packet_buffer_.try_push []).1,
                audio_packet_buffer_ := (s.audio_packet_buffer_.try_push []).1 }) := rfl

theorem seek_frame_false (s : InputState) (f : Int) (fl : Nat) :
    seek_frame s f fl false =
      (⟨seek_ts ((get_default_context s).getD ⟨0, 1⟩) f, fl ||| AVSEEK_FLAG_FRAME⟩, none) := rfl

/-- The two ways the tail of `construct` (initial seek or not) can return a
state. -/
theorem construct_tail_shape (p : ConstructParams) (s s0 : InputState) (sk : Bool)
    (h : (if max p.start_frame 0 ≠ 0 then
            match seek_frame s0 (max p.start_frame 0) 0 sk with
            | (_, some s1) => Except.ok { s1 with running := true }
            | (_, none) => Except.error ConstructError.invalid_operation
          else Except.ok { s0 with running := true }) = .ok s) :
    (max p.start_frame 0 = 0 ∧ s = { s0 with running := true }) ∨
    (max p.start_frame 0 ≠ 0 ∧
      s = { s0 with
              running := true
              video_packet_buffer_ := (s0.video_packet_buffer_.try_push []).1
              audio_packet_buffer_ := (s0.audio_packet_buffer_.try_push []).1 }) := by
  split at h
  · next hne =>
      refine Or.inr ⟨hne, ?_⟩
      split at h
      · next c s1 heq =>
          have hs1 := seek_frame_some _ _ _ _ _ _ heq
          cases h
          rw [hs1]
      · exact Except.noConfusion h
  · next hz =>
      cases h
      exact Or.inl ⟨not_not.mp hz, rfl⟩

/-- Every field of a state `construct` returns, as a function of the
parameters and the environment. -/
theorem construct_ok_shape (p : ConstructParams) (env : OpenEnv) (s : InputState)
    (h : construct p env = .ok s) :
    s.loop_ = p.loop ∧
    s.audio_s_index_ = (match env.audio_stream with | some ai => ai.2 | none => -1) ∧
    s.start_frame_ = max p.start_frame 0 ∧
    s.end_frame_ = p.end_frame ∧
    s.eof_count_ = p.end_frame - p.start_frame ∧
    s.video_codec_context_ =
      (if (env.audio_stream.map Prod.fst).isSome then
        fix_time_base (fix_time_base (env.video_stream.map Prod.fst))
      else fix_time_base (env.video_stream.map Prod.fst)) ∧
    s.audio_codex_context_ = env.audio_stream.map Prod.fst ∧
    s.running = true ∧
    s.exception_ = none ∧
    s.video_packet_buffer_.capacity = none ∧
    s.audio_packet_buffer_.capacity = none ∧
    s.video_s_index_ = (match env.video_stream with | some vi => vi.2 | none => -1) ∧
    (max p.start_frame 0 = 0 →
      s.video_packet_buffer_ = .emptyQueue ∧ s.audio_packet_buffer_ = .emptyQueue) ∧
    (max p.start_frame 0 ≠ 0 →
      s.video_packet_buffer_ = ⟨[[]], none⟩ ∧ s.audio_packet_buffer_ = ⟨[[]], none⟩) := by
  simp only [construct] at h
  split at h
  · exact Except.noConfusion h
  split at h
  · exact Except.noConfusion h
  split at h
  · exact Except.noConfusion h
  split at h
  · next hsome =>
      split at h
      · exact Except.noConfusion h
      rcases construct_tail_shape p s _ env.seek_ok h with ⟨hz, rfl⟩ | ⟨hne, rfl⟩
      · exact ⟨rfl, rfl, rfl, rfl, rfl, (if_pos hsome).symm, rfl, rfl, rfl, rfl, rfl, rfl,
          fun _ => ⟨rfl, rfl⟩, fun hne2 => absurd hz hne2⟩
      · exact ⟨rfl, rfl, rfl, rfl, rfl, (if_pos hsome).symm, rfl, rfl, rfl, rfl, rfl, rfl,
          fun h0 => absurd h0 hne, fun _ => ⟨rfl, rfl⟩⟩
  · next hnone =>
      split at h
      · exact Except.noConfusion h
      rcases construct_tail_shape p s _ env.seek_ok h with ⟨hz, rfl⟩ | ⟨hne, rfl⟩
      · exact ⟨rfl, rfl, rfl, rfl, rfl, (if_neg hnone).symm, rfl, rfl, rfl, rfl, rfl, rfl,
          fun _ => ⟨rfl, rfl⟩, fun hne2 => absurd hz hne2⟩
      · exact ⟨rfl, rfl, rfl, rfl, rfl, (if_neg hnone).symm, rfl, rfl, rfl, rfl, rfl, rfl,
          fun h0 => absurd h0 hne, fun _ => ⟨rfl, rfl⟩⟩

/-! Generic facts about the backpressure predicate. -/

theorem backpressure_wait_iff (s : InputState) :
    backpressure_wait s = true ↔
      (s.running = true ∧ s.audio_packet_buffer_.size > PACKET_BUFFER_COUNT ∧
        s.video_packet_buffer_.size > PACKET_BUFFER_COUNT) := by
  simp [backpressure_wait, and_assoc]

theorem read_file_blocked_eq (s : InputState) (fn : Int) (r : ReadResult) (sk : Bool) :
    (read_file s fn r sk).blocked = backpressure_wait (read_file s fn r sk).state := by
  rcases r with ⟨data, idx⟩ | e <;>
    · simp only [read_file, ReadResult.code]
      repeat' split
      all_goals rfl

theorem read_file_blocked_iff (s : InputState) (fn : Int) (r : ReadResult) (sk : Bool) :
    (read_file s fn r sk).blocked = true ↔
      ((read_file s fn r sk).state.running = true ∧
        (read_file s fn r sk).state.audio_packet_buffer_.size > PACKET_BUFFER_COUNT ∧
        (read_file s fn r sk).state.video_packet_buffer_.size > PACKET_BUFFER_COUNT) := by
  rw [read_file_blocked_eq]
  exact backpressure_wait_iff _

/-- C1. The claim says each queue is capacity-bounded at 25 with `try_push`
failing at capacity.  On the code, the queues' capacity is never set
(`set_capacity` is absent), so 26 consecutive `try_push` calls on the
default-constructed queue all return `true` and leave 26 > 25 items queued. -/
theorem C1_counterexample :
    (BoundedQueue.emptyQueue.pushAll (List.replicate 26 [0])).2 = List.replicate 26 true ∧
    (BoundedQueue.emptyQueue.pushAll (List.replicate 26 [0])).1.size = 26 ∧
    26 > PACKET_BUFFER_COUNT := by decide

/-- C1 (amended): `try_push` on the program's queues always succeeds and the
queue size equals the number of pushes (no 25-item cap is enforced by the
queue); every state `construct` returns carries the default unbounded
capacity on both queues. -/
theorem C1_amended :
    (∀ bs : List Buffer,
        (BoundedQueue.emptyQueue.pushAll bs).2 = List.replicate bs.length true ∧
        (BoundedQueue.emptyQueue.pushAll bs).1.size = bs.length) ∧
    (∀ (p : ConstructParams) (env : OpenEnv) (s : InputState), construct p env = .ok s →
        s.video_packet_buffer_.capacity = none ∧ s.audio_packet_buffer_.capacity = none) := by
  constructor
  · intro bs
    rw [BoundedQueue.pushAll_none bs BoundedQueue.emptyQueue rfl]
    simp [BoundedQueue.size, BoundedQueue.emptyQueue]
  · intro p env s h
    obtain ⟨-, -, -, -, -, -, -, -, -, hv, ha, -⟩ := construct_ok_shape p env s h
    exact ⟨hv, ha⟩

/-- C1 witness: the second part of `C1_amended` applied to a concrete
construction. -/
theorem C1_amended_witness :
    baseState.video_packet_buffer_.capacity = none ∧
    baseState.audio_packet_buffer_.capacity = none :=
  C1_amended.2 baseParams videoEnv baseState (by decide)

/-- C2. The claim says every consumer pop wakes a blocked worker into
continuing or exiting.  With 27 packets in each queue, a `get_video_packet`
pop (which does signal the condition) leaves 26 > 25 video and 27 > 25 audio
packets buffered, so the woken worker re-evaluates its while condition and
waits again: it neither continues nor exits. -/
theorem C2_counterexample :
    backpressure_wait saturState = true ∧
    (get_video_packet saturState).2 = some [0] ∧
    (get_video_packet saturState).1.video_packet_buffer_.size = 26 ∧
    (get_video_packet saturState).1.audio_packet_buffer_.size = 27 ∧
    wake (get_video_packet saturState).1 = .stillBlocked ∧
    WakeOutcome.stillBlocked ≠ .proceeds ∧ WakeOutcome.stillBlocked ≠ .exits := by decide

/-- C2 (amended): after each `read_file` iteration the worker blocks if and
only if it is still running and both queue sizes exceed 25 (so one saturated
queue alone never makes it wait); a signalled worker exits when stopped,
proceeds when some queue is at or below 25, and otherwise resumes waiting;
a stop request leaves the worker not running and a signal then makes it
exit. -/
theorem C2_amended :
    (∀ (s : InputState) (fn : Int) (r : ReadResult) (sk : Bool),
        (read_file s fn r sk).blocked = true ↔
          ((read_file s fn r sk).state.running = true ∧
            (read_file s fn r sk).state.audio_packet_buffer_.size > PACKET_BUFFER_COUNT ∧
            (read_file s fn r sk).state.video_packet_buffer_.size > PACKET_BUFFER_COUNT)) ∧
    (∀ (s : InputState) (fn : Int) (r : ReadResult) (sk : Bool),
        (read_file s fn r sk).state.audio_packet_buffer_.size ≤ PACKET_BUFFER_COUNT ∨
          (read_file s fn r sk).state.video_packet_buffer_.size ≤ PACKET_BUFFER_COUNT →
        (read_file s fn r sk).blocked = false) ∧
    (∀ s : InputState, wake s = .exits ↔ s.running = false) ∧
    (∀ s : InputState, s.running = true →
        (wake s = .proceeds ↔
          (s.audio_packet_buffer_.size ≤ PACKET_BUFFER_COUNT ∨
            s.video_packet_buffer_.size ≤ PACKET_BUFFER_COUNT))) ∧
    (∀ s : InputState, s.running = true →
        (wake s = .stillBlocked ↔
          (s.audio_packet_buffer_.size > PACKET_BUFFER_COUNT ∧
            s.video_packet_buffer_.size > PACKET_BUFFER_COUNT))) ∧
    (∀ s : InputState, (stop s).running = false ∧ wake (stop s) = .exits) := by
  refine ⟨read_file_blocked_iff, ?_, ?_, ?_, ?_, ?_⟩
  · intro s fn r sk hle
    rcases hb : (read_file s fn r sk).blocked with _ | _
    · rfl
    · obtain ⟨-, ha, hv⟩ := (read_file_blocked_iff s fn r sk).mp hb
      rcases hle with hle | hle <;> omega
  · intro s
    unfold wake backpressure_wait
    cases hr : s.running with
    | false => simp
    | true => split <;> simp
  · intro s hr
    unfold wake backpressure_wait
    rw [hr]
    simp only [Bool.true_and]
    split
    · next hcond =>
        rw [Bool.and_eq_true, decide_eq_true_eq, decide_eq_true_eq] at hcond
        simp only [reduceCtorEq, false_iff]
        omega
    · next hcond =>
        rw [Bool.and_eq_true, decide_eq_true_eq, decide_eq_true_eq] at hcond
        simp only [hr, if_true, true_iff]
        omega
  · intro s hr
    unfold wake backpressure_wait
    rw [hr]
    simp only [Bool.true_and]
    split
    · next hcond =>
        rw [Bool.and_eq_true, decide_eq_true_eq, decide_eq_true_eq] at hcond
        simp only [true_iff]
        omega
    · next hcond =>
        rw [Bool.and_eq_true, decide_eq_true_eq, decide_eq_true_eq] at hcond
        simp only [hr, if_true, reduceCtorEq, false_iff]
        omega
  · intro s
    exact ⟨rfl, by unfold wake backpressure_wait stop; simp⟩

/-- C2 witness: the stop conjunct of `C2_amended` at the saturated state. -/
theorem C2_amended_witness :
    (stop saturState).running = false ∧ wake (stop saturState) = .exits :=
  C2_amended.2.2.2.2.2 saturState

/-- C3. The claim says a library EOF indication is always treated as
end-of-stream.  With a window configured (`end_frame_ = 10`) and the frame
counter (5) not past `eof_count_` (10), `is_eof` ignores the library's
`AVERROR_EOF` and returns false, and the `read_file` iteration then treats
the EOF return code as a fatal error and stops the worker. -/
theorem C3_counterexample :
    libSignalsEOF AVERROR_EOF = true ∧
    windowState.end_frame_ = 10 ∧
    is_eof windowState 5 AVERROR_EOF = false ∧
    (read_file windowState 5 (.err AVERROR_EOF) true).state.running = false := by decide

/-- C3 (amended): when no window is configured (`end_frame_ = -1`),
end-of-stream holds exactly when the library signals EOF
(`AVERROR_EOF`/`AVERROR_IO`); when a window is configured, end-of-stream
holds exactly when the frame counter has passed `eof_count_`, the library's
EOF indication being ignored — inside the window it is handled as a fatal
read error that stops the worker. -/
theorem C3_amended :
    ∀ (s : InputState) (fn errn : Int),
      (s.end_frame_ = -1 → is_eof s fn errn = libSignalsEOF errn) ∧
      (s.end_frame_ ≠ -1 → is_eof s fn errn = decide (fn > s.eof_count_)) ∧
      (∀ sk : Bool, s.end_frame_ ≠ -1 → fn ≤ s.eof_count_ → libSignalsEOF errn = true →
        (read_file s fn (.err errn) sk).state = stop s ∧
        (read_file s fn (.err errn) sk).blocked = false) := by
  intro s fn errn
  refine ⟨?_, ?_, ?_⟩
  · intro he
    unfold is_eof libSignalsEOF
    rw [if_neg (by simp [he])]
  · intro he
    unfold is_eof
    rw [if_pos he]
  · intro sk he hfn heof
    have herrn : errn = AVERROR_EOF ∨ errn = AVERROR_IO := by
      unfold libSignalsEOF at heof
      rcases Bool.or_eq_true .. |>.mp heof with h | h <;>
        [exact Or.inl (of_decide_eq_true h); exact Or.inr (of_decide_eq_true h)]
    have hneg : errn < 0 := by
      rcases herrn with rfl | rfl <;> decide
    have heof_false : is_eof s fn errn = false := by
      unfold is_eof
      rw [if_pos he]
      simp only [decide_eq_false_iff_not]
      omega
    simp only [read_file, ReadResult.code]
    rw [heof_false]
    rw [if_neg (show ¬(false = true) by decide)]
    rw [if_pos hneg]
    exact ⟨rfl, rfl⟩

/-- C3 witness: `C3_amended` applied at the windowed state with a library
EOF inside the window. -/
theorem C3_amended_witness :
    (read_file windowState 5 (.err AVERROR_EOF) true).state = stop windowState ∧
    (read_file windowState 5 (.err AVERROR_EOF) true).blocked = false :=
  (C3_amended windowState 5 AVERROR_EOF).2.2 true (by decide) (by decide) (by decide)

/-- C4. A non-EOF read failure (here `av_read_frame` returning -22 with no
window configured) stops the worker, but no fault is ever recorded:
`exception_` (input.cpp:80) is never assigned anywhere — `read_file` leaves
it untouched in every case — and the subsequent facade calls return without
reporting anything. -/
theorem C4_bug :
    (∀ (s : InputState) (fn : Int) (r : ReadResult) (sk : Bool),
        (read_file s fn r sk).state.exception_ = s.exception_) ∧
    (read_file baseState 0 (.err (-22)) true).state.running = false ∧
    (read_file baseState 0 (.err (-22)) true).state.exception_ = none ∧
    (get_video_packet (read_file baseState 0 (.err (-22)) true).state).1.exception_ = none ∧
    (get_audio_packet (read_file baseState 0 (.err (-22)) true).state).1.exception_ = none := by
  refine ⟨?_, by decide, by decide, by decide, by decide⟩
  intro s fn r sk
  rcases r with ⟨data, idx⟩ | e <;> cases sk <;>
    · simp only [read_file, ReadResult.code, seek_frame]
      repeat' split
      all_goals first
        | rfl
        | ((simp_all [stop]) <;> (rename_i heq; rw [← heq.2]))

theorem floorLog10_pos {n : Nat} (h : 10 ≤ n) : 1 ≤ floorLog10 n := by
  obtain ⟨m, rfl⟩ : ∃ m, n = m + 1 := ⟨n - 1, by omega⟩
  unfold floorLog10
  simp only [floorLog10Aux]
  rw [if_neg (by omega)]
  omega

/-- C5. The claim says the next item retrievable from each queue after a
successful seek is the flush marker.  On a loop-restart seek the queues are
not cleared: with a stale packet queued, the marker is appended *behind* it,
and the next pop returns the stale (non-empty) packet. -/
theorem C5_counterexample :
    (read_file loopState 6 (.ok [1] 99) true).state = loopRestarted ∧
    loopRestarted.video_packet_buffer_.items = [[7], []] ∧
    loopRestarted.audio_packet_buffer_.items = [[9], []] ∧
    (get_video_packet loopRestarted).2 = some [7] ∧
    (get_audio_packet loopRestarted).2 = some [9] ∧
    some ([7] : Buffer) ≠ some ([] : Buffer) ∧
    some ([9] : Buffer) ≠ some ([] : Buffer) := by decide

/-- C5 (amended): every successful seek appends one zero-length flush marker
to each queue, so the marker is delivered before any packet produced after
the seek (FIFO); it is the next item retrievable exactly when the queue was
empty at seek time (as for the initial seek). -/
theorem C5_amended :
    ∀ (s : InputState) (frame : Int) (flags : Nat) (c : SeekCall) (s' : InputState),
      seek_frame s frame flags true = (c, some s') →
      s.video_packet_buffer_.capacity = none →
      s.audio_packet_buffer_.capacity = none →
      s'.video_packet_buffer_.items = s.video_packet_buffer_.items ++ [[]] ∧
      s'.audio_packet_buffer_.items = s.audio_packet_buffer_.items ++ [[]] ∧
      (∀ bs : List Buffer,
        (s'.video_packet_buffer_.pushAll bs).1.items
          = s.video_packet_buffer_.items ++ [[]] ++ bs) ∧
      (∀ bs : List Buffer,
        (s'.audio_packet_buffer_.pushAll bs).1.items
          = s.audio_packet_buffer_.items ++ [[]] ++ bs) ∧
      (s.video_packet_buffer_.items = [] → (get_video_packet s').2 = some []) ∧
      (s.audio_packet_buffer_.items = [] → (get_audio_packet s').2 = some []) := by
  intro s frame flags c s' h hv ha
  have hs' := seek_frame_some _ _ _ _ _ _ h
  subst hs'
  rw [BoundedQueue.try_push_none _ _ hv, BoundedQueue.try_push_none _ _ ha]
  refine ⟨rfl, rfl, ?_, ?_, ?_, ?_⟩
  · intro bs
    rw [BoundedQueue.pushAll_none bs _ rfl]
  · intro bs
    rw [BoundedQueue.pushAll_none bs _ rfl]
  · intro h0
    simp [get_video_packet, BoundedQueue.try_pop, h0]
  · intro h0
    simp [get_audio_packet, BoundedQueue.try_pop, h0]

/-- C5 witness: `C5_amended` applied to the loop-restart seek of
`loopState`. -/
theorem C5_amended_witness :
    loopSeeked.video_packet_buffer_.items = loopState.video_packet_buffer_.items ++ [[]] ∧
    loopSeeked.audio_packet_buffer_.items = loopState.audio_packet_buffer_.items ++ [[]] ∧
    (loopSeeked.video_packet_buffer_.pushAll [[5]]).1.items
      = loopState.video_packet_buffer_.items ++ [[]] ++ [[5]] :=
  have h := C5_amended loopState 0 AVSEEK_FLAG_BACKWARD ⟨0, 9⟩ loopSeeked (by decide) rfl rfl
  ⟨h.1, h.2.1, h.2.2.1 [[5]]⟩

/-- C6. The claim says `get_audio_packet` always returns absent when no audio
stream exists.  But `seek_frame` pushes its flush marker to the audio queue
unconditionally (input.cpp:290), so after the initial seek of a video-only
file `get_audio_packet` returns a (zero-length) buffer, not absent. -/
theorem C6_counterexample :
    construct seekParams videoEnv = .ok seekedState ∧
    seekedState.audio_codex_context_ = none ∧
    seekedState.audio_s_index_ = -1 ∧
    (get_audio_packet seekedState).2 = some [] ∧
    (some ([] : Buffer)) ≠ (none : Option Buffer) := by decide

/-- C6 (amended): with no audio stream the construction succeeds and the
audio queue only ever holds zero-length flush markers (pushed by seeks), so
`get_audio_packet` returns either absent or a zero-length marker — never a
real audio packet. -/
theorem C6_amended :
    (∀ (p : ConstructParams) (env : OpenEnv) (s : InputState),
        construct p env = .ok s → env.audio_stream = none →
        s.audio_s_index_ = -1 ∧ ∀ b ∈ s.audio_packet_buffer_.items, b = ([] : Buffer)) ∧
    (∀ (s : InputState) (fn : Int) (r : ReadResult) (sk : Bool),
        stream_index_wf r → s.audio_s_index_ = -1 →
        (∀ b ∈ s.audio_packet_buffer_.items, b = ([] : Buffer)) →
        ∀ b ∈ (read_file s fn r sk).state.audio_packet_buffer_.items, b = ([] : Buffer)) ∧
    (∀ s : InputState, (∀ b ∈ s.audio_packet_buffer_.items, b = ([] : Buffer)) →
        (get_audio_packet s).2 = none ∨ (get_audio_packet s).2 = some ([] : Buffer)) := by
  refine ⟨?_, ?_, ?_⟩
  · intro p env s h haud
    obtain ⟨-, hidx, -, -, -, -, -, -, -, -, -, -, h0, hne⟩ := construct_ok_shape p env s h
    refine ⟨by rw [hidx, haud], ?_⟩
    rcases eq_or_ne (max p.start_frame 0) 0 with hz | hnz
    · rw [(h0 hz).2]
      intro b hb
      simp [BoundedQueue.emptyQueue] at hb
    · rw [(hne hnz).2]
      intro b hb
      simpa using hb
  · intro s fn r sk hwf hidx hall
    simp only [stream_index_wf] at hwf
    rcases r with ⟨data, idx⟩ | e <;> cases sk <;>
      · simp only [read_file, ReadResult.code, seek_frame_true, seek_frame_false]
        repeat' split
        all_goals first
          | exact hall
          | (intro b hb
             rcases BoundedQueue.mem_try_push _ _ _ hb with hmem | rfl
             · exact hall b hmem
             · rfl)
          | (exfalso; omega)
  · intro s hall
    rcases hq : s.audio_packet_buffer_.items with _ | ⟨b, rest⟩
    · left
      simp [get_audio_packet, BoundedQueue.try_pop, hq]
    · right
      have hb : b = [] := hall b (by rw [hq]; exact List.mem_cons_self ..)
      simp [get_audio_packet, BoundedQueue.try_pop, hq, hb]

/-- C6 witness: the pop characterization of `C6_amended` at the video-only
seeked state. -/
theorem C6_amended_witness :
    (get_audio_packet seekedState).2 = none ∨
    (get_audio_packet seekedState).2 = some ([] : Buffer) :=
  C6_amended.2.2 seekedState (by decide)

/-- C7. The claim says every opened stream with numerator 1 gets numerator
`10^(digits(den)-1)`.  Two divergences: the code computes
`10^(floor(log10 den) - 1) = 10^(digits(den)-2)` (for den = 90000 that is
1000, not the claimed 10000); and the audio stream is never fixed at all —
input.cpp:134 passes the *video* context again, so an audio stream reported
as 1/48000 keeps numerator 1 in the constructed state. -/
theorem C7_counterexample :
    fix_time_base (some ⟨1, 90000⟩) = some ⟨1000, 90000⟩ ∧
    decimalDigits 90000 = 5 ∧
    spec_fix_num 90000 = 10000 ∧
    ((1000 : Int) ≠ 10000) ∧
    construct baseParams avEnv = .ok avState ∧
    avState.audio_codex_context_ = some ⟨1, 48000⟩ ∧
    spec_fix_num 48000 = 10000 ∧
    ((1 : Int) ≠ 10000) := by decide

/-- C7 (amended): a context whose numerator is not 1 is unchanged; a context
with numerator 1 and den ≥ 10 gets numerator `10^(digits(den)-2)`; and
construction stores every audio stream context exactly as the library
reported it (the audio branch fixes the video context again instead). -/
theorem C7_amended :
    (∀ c : CodecContext, c.time_base_num ≠ 1 → fix_time_base (some c) = some c) ∧
    (∀ den : Int, 10 ≤ den →
        fix_time_base (some ⟨1, den⟩) =
          some ⟨(10 : Int) ^ (decimalDigits den.toNat - 2), den⟩) ∧
    (∀ (p : ConstructParams) (env : OpenEnv) (s : InputState),
        construct p env = .ok s → s.audio_codex_context_ = env.audio_stream.map Prod.fst) := by
  refine ⟨?_, ?_, ?_⟩
  · intro c hc
    simp [fix_time_base, hc]
  · intro den hden
    have h10 : (10 : Nat) ≤ den.toNat := by omega
    have hL := floorLog10_pos h10
    have key : cpp_pow10_int ((floorLog10 den.toNat : Int) - 1)
        = (10 : Int) ^ (decimalDigits den.toNat - 2) := by
      unfold cpp_pow10_int decimalDigits
      rw [if_pos (by omega : (0 : Int) ≤ (floorLog10 den.toNat : Int) - 1)]
      congr 1
      omega
    simp [fix_time_base, key]
  · intro p env s h
    obtain ⟨-, -, -, -, -, -, hactx, -⟩ := construct_ok_shape p env s h
    exact hactx

/-- C7 witness: the degenerate-numerator case of `C7_amended` at den =
48000. -/
theorem C7_amended_witness :
    fix_time_base (some ⟨1, 48000⟩) =
      some ⟨(10 : Int) ^ (decimalDigits (48000 : Int).toNat - 2), 48000⟩ :=
  C7_amended.2.1 48000 (by decide)

/-- C8. The claim prescribes `frame * num * TIME_UNITS_PER_SECOND / den` with
the division applied last, and the caller-supplied flags.  The code divides
first — `frame * ((AV_TIME_BASE * num) / den)` — so for time base 1000/30000
and frame 3 it issues ts = 99999 where the claim demands 100000; and the
flag word issued is `flags | AVSEEK_FLAG_FRAME` (8, not the caller's 0). -/
theorem C8_counterexample :
    get_default_context tbState = some ⟨1000, 30000⟩ ∧
    (seek_frame tbState 3 0 true).1 = ⟨99999, 8⟩ ∧
    spec_seek_ts ⟨1000, 30000⟩ 3 = 100000 ∧
    ((99999 : Int) ≠ 100000) ∧
    ((8 : Nat) ≠ 0) := by decide

/-- C8 (amended): the issued call is
`⟨frame * ((AV_TIME_BASE * num).tdiv den), flags | AVSEEK_FLAG_FRAME⟩`
(division before the multiplication by frame, frame flag OR-ed in); it agrees
with the spec formula exactly when den divides `AV_TIME_BASE * num`. -/
theorem C8_amended :
    ∀ (s : InputState) (ctx : CodecContext) (frame : Int) (flags : Nat) (sk : Bool),
      get_default_context s = some ctx →
      (seek_frame s frame flags sk).1 =
        ⟨frame * ((AV_TIME_BASE * ctx.time_base_num).tdiv ctx.time_base_den),
         flags ||| AVSEEK_FLAG_FRAME⟩ ∧
      (ctx.time_base_den ∣ AV_TIME_BASE * ctx.time_base_num →
        (seek_frame s frame flags sk).1.ts = spec_seek_ts ctx frame) := by
  intro s ctx frame flags sk hctx
  have hcall := seek_frame_call s frame flags sk ctx hctx
  refine ⟨hcall, ?_⟩
  intro hdvd
  rw [hcall]
  show seek_ts ctx frame = spec_seek_ts ctx frame
  unfold seek_ts spec_seek_ts
  rw [show frame * ctx.time_base_num * AV_TIME_BASE
        = frame * (AV_TIME_BASE * ctx.time_base_num) by ring]
  rw [Int.mul_tdiv_assoc frame hdvd]

/-- C8 witness: `C8_amended` at the 1000/30000 default stream, frame 3,
caller flags 0 — where `30000 ∣ 10^9` fails, so only the call-shape part is
instantiated, plus the agreement part at the divisible time base 1/100. -/
theorem C8_amended_witness :
    (seek_frame tbState 3 0 true).1 = ⟨3 * ((AV_TIME_BASE * 1000).tdiv 30000), 0 ||| 8⟩ ∧
    (seek_frame { tbState with video_codec_context_ := some ⟨1, 100⟩ } 3 0 true).1.ts
      = spec_seek_ts ⟨1, 100⟩ 3 :=
  ⟨(C8_amended tbState ⟨1000, 30000⟩ 3 0 true (by decide)).1,
   (C8_amended { tbState with video_codec_context_ := some ⟨1, 100⟩ } ⟨1, 100⟩ 3 0 true
      (by decide)).2 (by decide)⟩

/-- C9 (confirmed): any construction request with loop on, a positive end
frame, and end_frame ≤ start_frame throws the configuration error before
consulting the environment at all — no resource is opened and no worker is
started, whatever the environment would have answered. -/
theorem C9_confirmed :
    ∀ (p : ConstructParams) (env : OpenEnv),
      p.loop = true → 0 < p.end_frame → p.end_frame ≤ p.start_frame →
      construct p env = .error .invalid_argument := by
  intro p env _ h1 h2
  simp only [construct]
  rw [if_pos ⟨h1, le_trans h2 (le_max_left _ _)⟩]

/-- C9 witness: `C9_confirmed` at loop=true, start_frame=5, end_frame=3. -/
theorem C9_confirmed_witness :
    construct badWindowParams videoEnv = .error .invalid_argument :=
  C9_confirmed badWindowParams videoEnv rfl (by decide) (by decide)

/-- C10. The claim says a negative start_frame behaves exactly like
start_frame = 0.  The stored start frame is clamped to 0 and no initial seek
happens, but `eof_count_` is initialized from the *unclamped* argument
(input.cpp:92): constructing with start_frame=-5, end_frame=10 yields
eof_count_ = 15 instead of 10, so at decoded-frame counter 12 the two
configurations disagree on end-of-stream. -/
theorem C10_counterexample :
    construct negStartParams videoEnv = .ok negStartState ∧
    construct zeroStartParams videoEnv = .ok zeroStartState ∧
    negStartState.start_frame_ = 0 ∧
    negStartState.video_packet_buffer_.items = [] ∧
    negStartState.eof_count_ = 15 ∧
    zeroStartState.eof_count_ = 10 ∧
    is_eof negStartState 12 0 = false ∧
    is_eof zeroStartState 12 0 = true := by decide

/-- C10 (amended): a negative start_frame is clamped to 0 for the stored
start frame and no initial seek is performed, but `eof_count_` is
`end_frame - start_frame` with the unclamped argument, so the constructed
state differs from the start_frame = 0 construction exactly in `eof_count_`;
the two behave alike only when no window is configured (`end_frame = -1`,
where `eof_count_` is never consulted by `is_eof`). -/
theorem C10_amended :
    ∀ (p : ConstructParams) (env : OpenEnv) (s s' : InputState),
      p.start_frame < 0 →
      construct p env = .ok s →
      construct { p with start_frame := 0 } env = .ok s' →
      s.start_frame_ = 0 ∧
      s.video_packet_buffer_ = .emptyQueue ∧
      s.audio_packet_buffer_ = .emptyQueue ∧
      s.eof_count_ = p.end_frame - p.start_frame ∧
      s = { s' with eof_count_ := p.end_frame - p.start_frame } ∧
      (p.end_frame = -1 → ∀ fn errn : Int, is_eof s fn errn = is_eof s' fn errn) := by
  intro p env s s' hneg h h'
  have hmax : max p.start_frame 0 = 0 := max_eq_right (le_of_lt hneg)
  have hs := construct_ok_shape p env s h
  have hs' := construct_ok_shape { p with start_frame := 0 } env s' h'
  rw [hmax] at hs
  simp only [max_self] at hs'
  obtain ⟨hl, hai, hsf, hef, hcnt, hvc, hac, hr, hex, hvcap, hacap, hvi, h0, -⟩ := hs
  obtain ⟨hl', hai', hsf', hef', hcnt', hvc', hac', hr', hex', hvcap', hacap', hvi', h0', -⟩ := hs'
  obtain ⟨hvq, haq⟩ := h0 rfl
  obtain ⟨hvq', haq'⟩ := h0' trivial
  have hend : s.end_frame_ = p.end_frame := hef
  have hend' : s'.end_frame_ = p.end_frame := hef'
  refine ⟨hsf, hvq, haq, hcnt, ?_, ?_⟩
  · rcases s with ⟨sl, svi, sai, ssf, sef, sec, svc, sac, svq2, saq2, sr, sex⟩
    rcases s' with ⟨tl, tvi, tai, tsf, tef, tec, tvc, tac, tvq2, taq2, tr, tex⟩
    simp_all
  · intro he fn errn
    unfold is_eof
    rw [hend, hend', he]
    simp

/-- C10 witness: `C10_amended` at start_frame=-5, end_frame=10 against the
video-only environment. -/
theorem C10_amended_witness :
    negStartState.start_frame_ = 0 ∧
    negStartState.video_packet_buffer_ = .emptyQueue ∧
    negStartState.audio_packet_buffer_ = .emptyQueue ∧
    negStartState.eof_count_ = (10 : Int) - (-5) ∧
    negStartState = { zeroStartState with eof_count_ := (10 : Int) - (-5) } ∧
    ((10 : Int) = -1 → ∀ fn errn : Int,
      is_eof negStartState fn errn = is_eof zeroStartState fn errn) :=
  C10_amended negStartParams videoEnv negStartState zeroStartState (by decide)
    (by decide) (by decide)

end CasparInput
